import Mathlib

/-!
Verification development for the `economy/procure` repository: a shallow
embedding of the task-orchestration pipeline (FastAPI router
`app/routers/analysis.py`, the data model `app/models/tasks.py`, and the
deterministic parts of the agents it calls), together with theorems that
settle the specification claims against this embedding.

Python values that flow through the pipeline (`dict[str, Any]` payloads)
are modelled by the inductive `PyVal`; Python dictionaries are association
lists with last-binding-wins lookup, matching assignment/overwrite
semantics of `dict`.
-/

/-- Model of the Python values the pipeline manipulates: strings, lists,
string-keyed dictionaries, and `None`. -/
inductive PyVal where
  | str : String → PyVal
  | list : List PyVal → PyVal
  | dict : List (String × PyVal) → PyVal
  | none : PyVal

/-- A Python `dict[str, Any]`: an association list whose lookup takes the
last binding for a key, matching `d[k] = v` overwrite semantics. -/
abbrev PyDict := List (String × PyVal)

/-- Python dictionary lookup (`d.get(k)`): the value of the last binding of
`k`, if any. -/
def pyGet (d : PyDict) (k : String) : Option PyVal :=
  (d.reverse.find? (fun kv => kv.1 = k)).map (fun kv => kv.2)

/-- Python truthiness (`bool(v)`) for the modelled values: non-empty strings,
non-empty lists and non-empty dicts are truthy; `None` is falsy. -/
def PyVal.truthy : PyVal → Bool
  | .str s => s ≠ ""
  | .list l => !l.isEmpty
  | .dict d => !d.isEmpty
  | .none => false

/-! ### Python string primitives

The source uses `str.lower`, `str.replace` (single-character patterns only),
`str.title`, `str.strip`, the substring operator `in`, and
comparison/sorting of strings by code point.  Each is given a structurally
recursive model so that concrete runs reduce inside the kernel. -/

/-- Whether `needle` occurs at the start of `hay` (on character lists). -/
def startsWithChars : List Char → List Char → Bool
  | _, [] => true
  | [], _ :: _ => false
  | a :: as, b :: bs => a = b && startsWithChars as bs

/-- Whether `needle` occurs somewhere in `hay` (on character lists). -/
def containsChars : List Char → List Char → Bool
  | [], needle => needle.isEmpty
  | c :: rest, needle =>
      startsWithChars (c :: rest) needle || containsChars rest needle

/-- Python substring test `needle in hay`. -/
def strContains (hay needle : String) : Bool :=
  containsChars hay.data needle.data

/-- Python `str.lower()` (ASCII; all concrete strings in this development are
ASCII). -/
def pyLower (s : String) : String :=
  String.mk (s.data.map Char.toLower)

/-- Python `str.replace(c, r)` for a single-character pattern, which is a
character-wise map. -/
def replaceChar (c r : Char) (s : String) : String :=
  String.mk (s.data.map (fun x => if x = c then r else x))

/-- Python `str.title()` on ASCII text: the first letter of each run of
letters is uppercased, the following letters lowercased. -/
def pyTitle (s : String) : String :=
  String.mk ((s.data.foldl
    (fun (acc : List Char × Bool) c =>
      if c.isAlpha then
        (acc.1 ++ [if acc.2 then c.toLower else c.toUpper], true)
      else
        (acc.1 ++ [c], false))
    ([], false)).1)

/-- The whitespace characters removed by Python `str.strip()`. -/
def pyIsSpace (c : Char) : Bool :=
  c = ' ' || c = '\t' || c = '\n' || c = '\r' || c = '\x0b' || c = '\x0c'

/-- Python `str.strip()`. -/
def pyStrip (s : String) : String :=
  String.mk (((s.data.dropWhile pyIsSpace).reverse.dropWhile pyIsSpace).reverse)

/-- Python string comparison `a < b`: lexicographic by code point. -/
def strLtChars : List Char → List Char → Bool
  | [], [] => false
  | [], _ :: _ => true
  | _ :: _, [] => false
  | a :: as, b :: bs =>
      if a.val < b.val then true
      else if a.val = b.val then strLtChars as bs
      else false

/-- Python string comparison `a <= b`. -/
def strLe (a b : String) : Bool := !(strLtChars b.data a.data)

/-- Insert a string into a (sorted) list, keeping it sorted (helper for the
model of Python `sorted`). -/
def insertSorted (a : String) : List String → List String
  | [] => [a]
  | b :: bs => if strLe a b then a :: b :: bs else b :: insertSorted a bs

/-- Model of Python `sorted` on lists of strings (insertion sort by code
point; the source never relies on stability because it sorts de-duplicated
lists). -/
def sortStrings (xs : List String) : List String := xs.foldr insertSorted []

/-- Helper for `pyDedup`: drop elements already seen. -/
def dedupAux (seen : List String) : List String → List String
  | [] => []
  | x :: xs => if seen.contains x then dedupAux seen xs
               else x :: dedupAux (x :: seen) xs

/-- The distinct elements of a list (the effect of Python `set(...)` before a
`sorted`, where the iteration order of the set does not matter). -/
def pyDedup (xs : List String) : List String := dedupAux [] xs

/-- Python `sorted(list(set(xs)))` on strings, as used at
`analysis.py:48` and `formatting_agent.py:54`. -/
def dedupSort (xs : List String) : List String := sortStrings (pyDedup xs)

/-- Sanity check of the Python string model on concrete inputs. -/
theorem string_model_sanity :
    dedupSort ["b", "a", "b"] = ["a", "b"]
    ∧ strContains "reddit.com/x" "reddit.com" = true
    ∧ pyTitle (replaceChar '_' ' ' "pricing_model") = "Pricing Model"
    ∧ pyStrip "  [1] " = "[1]" := by
  refine ⟨by decide, by decide, by decide, by decide⟩

/-! ### `app/models/tasks.py` -/

/-- The pipeline states, exactly the members declared by the Python enum
`ProcurementState` (`tasks.py:6-14`).  Note the terminal success member is
named `DONE`; there is no `COMPLETED`, `PROCESSING` or `ENRICHING` member,
although `analysis.py` refers to all three by attribute access. -/
inductive ProcurementState where
  | START
  | CLARIFYING
  | AWAITING_CLARIFICATION
  | SEARCHING
  | EXTRACTING
  | FORMATTING
  | DONE
  | ERROR
deriving DecidableEq, Repr

/-- Python attribute access `ProcurementState.<name>` resolves enum members
by name; accessing a name that is not a member raises `AttributeError`.
This function is the member table of the enum in `tasks.py:6-14`. -/
def ProcurementState.fromName : String → Option ProcurementState
  | "START" => some .START
  | "CLARIFYING" => some .CLARIFYING
  | "AWAITING_CLARIFICATION" => some .AWAITING_CLARIFICATION
  | "SEARCHING" => some .SEARCHING
  | "EXTRACTING" => some .EXTRACTING
  | "FORMATTING" => some .FORMATTING
  | "DONE" => some .DONE
  | "ERROR" => some .ERROR
  | _ => Option.none

/-- Python `state.name` for the enum members. -/
def ProcurementState.pyName : ProcurementState → String
  | .START => "START"
  | .CLARIFYING => "CLARIFYING"
  | .AWAITING_CLARIFICATION => "AWAITING_CLARIFICATION"
  | .SEARCHING => "SEARCHING"
  | .EXTRACTING => "EXTRACTING"
  | .FORMATTING => "FORMATTING"
  | .DONE => "DONE"
  | .ERROR => "ERROR"

/-- The task record `ProcurementData` (`tasks.py:16-25`), with the pydantic
defaults.  `extracted_data : list[dict[str, Any]]` is modelled as a list of
`PyDict`. -/
structure ProcurementData where
  task_id : String
  current_state : ProcurementState := .START
  initial_query : String
  clarified_query : String := ""
  comparison_factors : List String := []
  search_results : List String := []
  extracted_data : List PyDict := []
  formatted_output : Option String := Option.none
  error_message : Option String := Option.none

/-- The Python exceptions raised by the embedded code. -/
inductive PyErr where
  /-- Model of `fastapi.HTTPException(status_code, detail)`. -/
  | http : Nat → String → PyErr
  /-- An `AttributeError` carrying the missing attribute name (for a missing
  enum member, `str(e)` is exactly that name). -/
  | attributeError : String → PyErr
  /-- A `KeyError` carrying the missing key. -/
  | keyError : String → PyErr
  /-- A `TypeError` (message abbreviated). -/
  | typeError : String → PyErr
deriving DecidableEq, Repr

/-- Python `str(e)` for the exceptions above, as stored into `error_message` by the
`except` block of `run_analysis`. -/
def PyErr.pyMessage : PyErr → String
  | .http _ d => d
  | .attributeError n => n
  | .keyError k => "'" ++ k ++ "'"
  | .typeError m => m

/-! ### Python `str()`/`repr()` for the modelled values

`_format_value` interpolates values into f-strings and calls
`", ".join(map(str, value))`, which uses `str()`; for lists and dicts
`str()` is `repr()`. -/

/-- Join strings with a separator (`sep.join(xs)`). -/
def joinSep (sep : String) : List String → String
  | [] => ""
  | [x] => x
  | x :: xs => x ++ sep ++ joinSep sep xs

/-- Concatenation of a list of strings. -/
def concatStrings (l : List String) : String := l.foldl (fun a b => a ++ b) ""

/-- Escape a string body for Python `repr` with the given quote char. -/
def pyReprStrEsc (quote : Char) (s : String) : String :=
  String.mk (s.data.foldr
    (fun c acc =>
      if c = '\\' then '\\' :: '\\' :: acc
      else if c = quote then '\\' :: c :: acc
      else if c = '\n' then '\\' :: 'n' :: acc
      else if c = '\r' then '\\' :: 'r' :: acc
      else if c = '\t' then '\\' :: 't' :: acc
      else c :: acc) [])

/-- Python `repr` of a string: single-quoted, except double-quoted when the
string contains a single quote but no double quote. -/
def pyReprStr (s : String) : String :=
  if strContains s (String.mk [Char.ofNat 39]) && !(strContains s "\"") then
    "\"" ++ pyReprStrEsc '"' s ++ "\""
  else
    String.mk [Char.ofNat 39] ++ pyReprStrEsc (Char.ofNat 39) s
      ++ String.mk [Char.ofNat 39]

mutual

/-- Python `repr()` of a modelled value. -/
def PyVal.pyRepr : PyVal → String
  | .str s => pyReprStr s
  | .list l => "[" ++ joinSep ", " (pyReprListAux l) ++ "]"
  | .dict d => "\x7b" ++ joinSep ", " (pyReprDictAux d) ++ "\x7d"
  | .none => "None"

/-- Python `repr` of each element of a list. -/
def pyReprListAux : List PyVal → List String
  | [] => []
  | v :: vs => PyVal.pyRepr v :: pyReprListAux vs

/-- Python `repr` of each `key: value` binding of a dict. -/
def pyReprDictAux : List (String × PyVal) → List String
  | [] => []
  | (k, v) :: kvs => (pyReprStr k ++ ": " ++ PyVal.pyRepr v) :: pyReprDictAux kvs

end

/-- Python `str()` of a modelled value: identity on strings, `repr` on
containers, `"None"` on `None`. -/
def PyVal.pyStr : PyVal → String
  | .str s => s
  | v => v.pyRepr

/-! ### `app/agents/formatting_agent.py` -/

/-- Whether a value is a Python dict (`isinstance(item, dict)`). -/
def PyVal.isDict : PyVal → Bool
  | .dict _ => true
  | _ => false

/-- One iteration of the list-of-dicts branch of `_format_value`
(`formatting_agent.py:27-32`): joins the truthy `key: value` bindings of one
dict, title-casing the keys, and keeps the parenthesised string when it is
non-empty. -/
def formatDictItem (d : List (String × PyVal)) : Option String :=
  let item_str := joinSep ", "
    ((d.filter (fun kv => kv.2.truthy)).map
      (fun kv => pyTitle (replaceChar '_' ' ' kv.1) ++ ": " ++ kv.2.pyStr))
  if item_str = "" then Option.none else some ("(" ++ item_str ++ ")")

/-- The part of `_format_value` after the optional `ast.literal_eval`
reassignment (`formatting_agent.py:20-41`): lists are rendered (empty list
and `None` become `"Not Found"`), everything else goes through `str()`. -/
def formatValueCore : PyVal → String
  | .list [] => "Not Found"
  | .list l =>
      if l.all PyVal.isDict then
        let formatted_items := l.filterMap
          (fun v => match v with
            | .dict d => formatDictItem d
            | _ => Option.none)
        if formatted_items.isEmpty then "Not Found"
        else joinSep " | " formatted_items
      else joinSep ", " (l.map PyVal.pyStr)
  | .none => "Not Found"
  | .str s => s
  | .dict d => PyVal.pyStr (.dict d)

/-- Embedding of `_format_value` (`formatting_agent.py:6-41`).  `litEval` abstracts the
Python standard-library parser `ast.literal_eval` (returning `none` where it
would raise `ValueError`/`SyntaxError`); a string that looks like a list is
parsed back and rendered, with a fallback to the original string. -/
def format_value (litEval : String → Option PyVal) : PyVal → String
  | .str s =>
      if startsWithChars (pyStrip s).data ['['] &&
         startsWithChars (pyStrip s).data.reverse [']'] then
        match litEval s with
        | Option.none => s
        | some v => formatValueCore v
      else formatValueCore (.str s)
  | v => formatValueCore v

/-- Embedding of `_format_header` (`formatting_agent.py:43-45`). -/
def format_header (h : String) : String := pyTitle (replaceChar '_' ' ' h)

/-- Python `str(field)` as the `csv` writer applies it to each cell; `None` is
written as the empty string. -/
def csvFieldStr : PyVal → String
  | .none => ""
  | v => v.pyStr

/-- Whether the `csv` writer must quote a cell under `QUOTE_MINIMAL`. -/
def csvNeedsQuote (s : String) : Bool :=
  s.data.any (fun c => c = ',' || c = '"' || c = '\r' || c = '\n')

/-- Double every double quote inside a quoted cell. -/
def csvEscape (s : String) : String :=
  String.mk (s.data.foldr
    (fun c acc => if c = '"' then '"' :: '"' :: acc else c :: acc) [])

/-- One cell as written by `csv.writer` (default dialect). -/
def csvCell (v : PyVal) : String :=
  let s := csvFieldStr v
  if csvNeedsQuote s then "\"" ++ csvEscape s ++ "\"" else s

/-- One row as written by `csv.writer.writerow` (default dialect: comma
delimiter, `\r\n` terminator; a sole empty field is quoted so the row is not
empty). -/
def csvRow (cells : List PyVal) : String :=
  match cells with
  | [v] => (if csvFieldStr v = "" then "\"\"" else csvCell v) ++ "\r\n"
  | _ => joinSep "," (cells.map csvCell) ++ "\r\n"

/-- Python iteration `for x in v` over a modelled value: lists yield their
elements, strings their characters, dicts their keys; `None` is not
iterable. -/
def pyIterate : PyVal → Except PyErr (List PyVal)
  | .list l => .ok l
  | .str s => .ok (s.data.map (fun c => PyVal.str (String.mk [c])))
  | .dict d => .ok (d.map (fun kv => PyVal.str kv.1))
  | .none => .error (.typeError "argument of type NoneType is not iterable")

/-- Python membership `k in f` for a string `k`: key test on dicts,
substring test on strings, element equality on lists (a string equals no
list/dict/None). -/
def pyContainsKey (f : PyVal) (k : String) : Except PyErr Bool :=
  match f with
  | .dict d => .ok ((pyGet d k).isSome)
  | .str s => .ok (strContains s k)
  | .list l => .ok (l.any (fun v => match v with | .str t => t = k | _ => false))
  | .none => .error (.typeError "argument of type NoneType is not iterable")

/-- Python subscript `f[k]` for a string key: dict lookup (`KeyError` when
missing), `TypeError` on anything else. -/
def pySubscript (f : PyVal) (k : String) : Except PyErr PyVal :=
  match f with
  | .dict d =>
      match pyGet d k with
      | some v => .ok v
      | Option.none => .error (.keyError k)
  | _ => .error (.typeError "value is not subscriptable by a string")

/-- Python `==` as used for dictionary keys here: the keys stored by the
comprehension are hashable (`str` or `None`), and `str` compares unequal to
every non-`str`. -/
def pyKeyEq (a b : PyVal) : Bool :=
  match a, b with
  | .str x, .str y => x = y
  | .none, .none => true
  | _, _ => false

/-- Lookup in an association list with Python-dict semantics (last binding
wins). -/
def assocGetLast (pairs : List (PyVal × PyVal)) (k : PyVal) : Option PyVal :=
  (pairs.reverse.find? (fun kv => pyKeyEq kv.1 k)).map (fun kv => kv.2)

/-- The dict comprehension of `format_data_as_csv`
(`formatting_agent.py:65-69`):
`{factor['name']: factor['value'] for factor in ... if 'name' in factor}`.
A non-hashable key (list/dict) raises `TypeError` as in Python. -/
def factorsDictAux (acc : List (PyVal × PyVal)) :
    List PyVal → Except PyErr (List (PyVal × PyVal))
  | [] => .ok acc
  | f :: fs => do
      let has ← pyContainsKey f "name"
      if has then
        let n ← pySubscript f "name"
        let v ← pySubscript f "value"
        match n with
        | .list _ => .error (.typeError "unhashable type: list")
        | .dict _ => .error (.typeError "unhashable type: dict")
        | _ => factorsDictAux (acc ++ [(n, v)]) fs
      else factorsDictAux acc fs

/-- One body row of `format_data_as_csv` (`formatting_agent.py:62-76`):
product name (default `'N/A'`), then, per sorted unique factor, the value
from the factor dictionary (default `'Not found'`) rendered by
`_format_value`. -/
def buildRow (litEval : String → Option PyVal) (unique_factors : List String)
    (item : PyDict) : Except PyErr (List PyVal) := do
  let product_name := (pyGet item "product_name").getD (.str "N/A")
  let efs ← pyIterate ((pyGet item "extracted_factors").getD (.list []))
  let pairs ← factorsDictAux [] efs
  let cells := unique_factors.map (fun fn =>
    PyVal.str (format_value litEval
      ((assocGetLast pairs (.str fn)).getD (.str "Not found"))))
  .ok (product_name :: cells)

/-- Embedding of `format_data_as_csv` (`formatting_agent.py:47-78`): header row
`product_name` followed by the formatted sorted unique factor names, then
one row per item of `extracted_data`. -/
def format_data_as_csv (litEval : String → Option PyVal)
    (extracted_data : List PyDict) (comparison_factors : List String) :
    Except PyErr String := do
  let unique_factors := dedupSort comparison_factors
  let header := csvRow (PyVal.str "product_name" ::
    unique_factors.map (fun f => PyVal.str (format_header f)))
  let rows ← extracted_data.mapM (fun item => do
    let cells ← buildRow litEval unique_factors item
    pure (csvRow cells))
  pure (header ++ concatStrings rows)

/-- Sanity check of the CSV embedding on concrete inputs. -/
theorem format_csv_sanity :
    format_data_as_csv (fun _ => Option.none)
      [[("product_name", .str "Acme"),
        ("extracted_factors", .list [.dict [("name", .str "pricing"), ("value", .str "free")]])]]
      ["pricing"]
      = .ok "product_name,Pricing\r\nAcme,free\r\n" := rfl

/-! ### `app/agents/search_agent.py` (deterministic parts)

The network and LLM calls of `search_and_extract` are abstracted as oracles;
what is embedded is (a) the per-query result collection and filtering loop
(`search_agent.py:127-201`) and (b) the final formatting loop that builds
the collected records (`search_agent.py:438-454`). -/

/-- The model `FactorDefinition` (`app/models/factors.py:10-28`). -/
structure FactorDefinition where
  schema : PyVal
  processing_type : String
  categories : Option (List String)

/-- Pydantic `definition.dict()` for a `FactorDefinition`. -/
def FactorDefinition.toPyDict (fd : FactorDefinition) : PyVal :=
  .dict [("schema", fd.schema),
         ("processing_type", .str fd.processing_type),
         ("categories", match fd.categories with
           | some cs => .list (cs.map PyVal.str)
           | Option.none => .none)]

/-- The key normalisation `factor.lower().replace(" ", "_").replace("/", "_")`
(`search_agent.py:443`). -/
def normalizeKey (factor : String) : String :=
  replaceChar '/' '_' (replaceChar ' ' '_' (pyLower factor))

/-- The final collection loop of `search_and_extract`
(`search_agent.py:438-454`): every product of the result data is turned
into a record whose `extracted_factors` carry, per requested factor, the
product's value under the normalised key, with falsy or missing values
replaced by the sentinel `"Not found"`.  No record is filtered out. -/
def formatProducts (products : List PyDict) (comparison_factors : List String)
    (factor_definitions : List FactorDefinition) : List PyDict :=
  products.map (fun product =>
    let extracted_factors := (comparison_factors.zip factor_definitions).map
      (fun fd =>
        let key := normalizeKey fd.1
        let value := match pyGet product key with
          | some v => if v.truthy then v else .str "Not found"
          | Option.none => .str "Not found"
        PyVal.dict [("name", .str fd.1), ("value", value),
                    ("definition", fd.2.toPyDict)])
    [("product_name", (pyGet product "product_name").getD .none),
     ("extracted_factors", .list extracted_factors)])

/-- How many of a collected record's factor fields hold the `"Not found"`
sentinel. -/
def notFoundCount (p : PyDict) : Nat :=
  match pyGet p "extracted_factors" with
  | some (.list fs) =>
      fs.countP (fun f =>
        match f with
        | .dict d =>
            match pyGet d "value" with
            | some (.str s) => s = "Not found"
            | _ => false
        | _ => false)
  | _ => 0

/-- One Exa search result as consumed by the filtering loop
(`search_agent.py:150-184`): its URL, optional title, optional text. -/
structure SearchResult where
  url : String
  title : Option String
  text : Option String
deriving DecidableEq, Repr

/-- The skip-domain list of `search_agent.py:158-163`. -/
def skipDomains : List String :=
  ["reddit.com", "stackoverflow.com", "quora.com", "medium.com",
   "dev.to", "hackernews", "news.ycombinator.com", "discord.com",
   "slack.com", "telegram.org", "facebook.com", "twitter.com",
   "linkedin.com", "youtube.com", "vimeo.com"]

/-- The skip-term list of `search_agent.py:167-171`. -/
def skipTerms : List String :=
  ["what is", "how to", "guide to", "tutorial", "introduction",
   "overview", "explained", "discussion", "opinion", "review",
   "comparison of", "vs ", "versus", "differences between"]

/-- The per-result filter of the collection loop
(`search_agent.py:151-183`).  The final prefer-domain check appends the
result in both branches, so only the two skip checks decide. -/
def keepResult (r : SearchResult) : Bool :=
  let url := pyLower r.url
  let title := match r.title with
    | some t => if t ≠ "" then pyLower t else ""
    | Option.none => ""
  !(skipDomains.any (fun d => strContains url d)) &&
  !(skipTerms.any (fun t => strContains title t))

/-- The seven search queries built from the product category
(`search_agent.py:127-135`). -/
def searchQueries (product_category : String) : List String :=
  [product_category ++ " software comparison 2024",
   "best " ++ product_category ++ " tools list",
   product_category ++ " platforms and solutions",
   "top " ++ product_category ++ " software products",
   product_category ++ " alternatives comparison",
   product_category ++ " software directory",
   product_category ++ " tools marketplace"]

/-- One iteration of the collection loop of `search_and_extract`
(`search_agent.py:139-194`): the search oracle either raises (the query is
skipped) or returns results, whose filtered survivors are appended to the
running list. -/
def collectStep (searchOracle : String → Except String (List SearchResult))
    (acc : List SearchResult) (q : String) : List SearchResult :=
  match searchOracle q with
  | .error _ => acc
  | .ok rs => if rs.isEmpty then acc else acc ++ rs.filter keepResult

/-- The collection loop of `search_and_extract`
(`search_agent.py:139-194`): fold `collectStep` over the seven queries,
starting from the empty list.  Nothing is de-duplicated. -/
def allResults (product_category : String)
    (searchOracle : String → Except String (List SearchResult)) :
    List SearchResult :=
  (searchQueries product_category).foldl (collectStep searchOracle) []

/-- The results handed to the extraction step: `all_results[:10]`
(`search_agent.py:207-210`, also used by the fallback extraction paths). -/
def extractionInputs (product_category : String)
    (searchOracle : String → Except String (List SearchResult)) :
    List SearchResult :=
  (allResults product_category searchOracle).take 10

/-! ### `app/routers/analysis.py`

`run_analysis` is embedded as a function of the task record and an
environment of stage oracles, returning the final task record together with
the list of snapshots observable at its `await` suspension points (the only
points at which another coroutine — in particular the status endpoint — can
read the record).  Its `try/except` (`analysis.py:121-124`) uniformly maps
any raised exception message `m` to `current_state = ERROR`,
`error_message = str(m)`; that handler is inlined at each raise site.

The Python attribute accesses `ProcurementState.PROCESSING`,
`ProcurementState.ENRICHING` and `ProcurementState.COMPLETED`
(`analysis.py:63,70,119`) are embedded through
`ProcurementState.fromName`, because those names are not members of the
enum in `tasks.py` and the access raises `AttributeError` (whose `str` is
the missing name). -/

/-- The result object of `clarify_query` as `run_analysis` consumes it
(attributes read at `analysis.py:40-47`): `needs_clarification`,
`question_for_user`, `clarified_query`, `comparison_factors`. -/
structure ClarificationResult where
  needs_clarification : Bool
  question_for_user : Option String
  clarified_query : String
  comparison_factors : List String

/-- The stage oracles of `run_analysis`: outcome of `clarify_query`, of
`search_and_extract`, of `process_data`, of the enrichment gather
(`analysis.py:71-110`), and the `ast.literal_eval` parser used by
`format_data_as_csv`.  An `error m` outcome is an exception with
`str(e) = m`. -/
structure AnalysisEnv where
  clarify : String → Except String ClarificationResult
  searchExtract : String → List String → Except String (List PyDict)
  processData : List PyDict → Except String (List PyDict)
  enrich : List PyDict → Except String (List PyDict)
  litEval : String → Option PyVal

/-- A snapshot of the externally observable task fields. -/
structure Obs where
  state : ProcurementState
  formatted_output : Option String
  error_message : Option String
deriving DecidableEq, Repr

/-- Snapshot of a task record. -/
def snap (d : ProcurementData) : Obs :=
  ⟨d.current_state, d.formatted_output, d.error_message⟩

/-- The `except` block of `run_analysis` (`analysis.py:121-124`). -/
def failD (d : ProcurementData) (m : String) : ProcurementData :=
  { d with current_state := .ERROR, error_message := some m }

/-- The expression `task_data.clarified_query or task_data.initial_query`
(`analysis.py:37`). -/
def queryToClarify (d : ProcurementData) : String :=
  if d.clarified_query ≠ "" then d.clarified_query else d.initial_query

/-- Python `x or default` for an optional string (`None` and `""` both give
the default), as at `analysis.py:42`. -/
def orDefault (x : Option String) (dflt : String) : String :=
  match x with
  | some s => if s ≠ "" then s else dflt
  | Option.none => dflt

/-- Steps 5 of `run_analysis` (`analysis.py:112-119`): set `FORMATTING`,
render the CSV, store it, then the attribute access
`ProcurementState.COMPLETED` — which is not a member of the enum. -/
def formattingStep (env : AnalysisEnv) (d : ProcurementData)
    (obs : List Obs) : ProcurementData × List Obs :=
  let d := { d with current_state := .FORMATTING }
  match format_data_as_csv env.litEval d.extracted_data d.comparison_factors with
  | .error e => (failD d e.pyMessage, obs)
  | .ok csv =>
    let d := { d with formatted_output := some csv }
    match ProcurementState.fromName "COMPLETED" with
    | Option.none => (failD d "COMPLETED", obs)
    | some s => ({ d with current_state := s }, obs)

/-- Step 4 of `run_analysis` (`analysis.py:69-110`): the attribute access
`ProcurementState.ENRICHING` (not a member), then the enrichment gather. -/
def enrichingStep (env : AnalysisEnv) (d : ProcurementData)
    (obs : List Obs) : ProcurementData × List Obs :=
  match ProcurementState.fromName "ENRICHING" with
  | Option.none => (failD d "ENRICHING", obs)
  | some s =>
    let d := { d with current_state := s }
    let obs := obs ++ [snap d]
    match env.enrich d.extracted_data with
    | .error m => (failD d m, obs)
    | .ok ed => formattingStep env { d with extracted_data := ed } obs

/-- Step 3 of `run_analysis` (`analysis.py:62-67`): the attribute access
`ProcurementState.PROCESSING` (not a member), then `process_data`. -/
def processingStep (env : AnalysisEnv) (d : ProcurementData)
    (obs : List Obs) : ProcurementData × List Obs :=
  match ProcurementState.fromName "PROCESSING" with
  | Option.none => (failD d "PROCESSING", obs)
  | some s =>
    let d := { d with current_state := s }
    let obs := obs ++ [snap d]
    match env.processData d.extracted_data with
    | .error m => (failD d m, obs)
    | .ok pd => enrichingStep env { d with extracted_data := pd } obs

/-- Step 2 of `run_analysis` (`analysis.py:50-60`): set `EXTRACTING`, call
`search_and_extract`, store the result, and raise the distinguished
discovery failure when it is empty. -/
def discoveryStep (env : AnalysisEnv) (d : ProcurementData)
    (obs : List Obs) : ProcurementData × List Obs :=
  let d := { d with current_state := .EXTRACTING }
  let obs := obs ++ [snap d]
  match env.searchExtract d.clarified_query d.comparison_factors with
  | .error m => (failD d m, obs)
  | .ok ed =>
    let d := { d with extracted_data := ed }
    if ed.isEmpty then
      (failD d "Phase 1 (Discovery) failed: Could not extract any initial data.", obs)
    else processingStep env d obs

/-- Embedding of `run_analysis` (`analysis.py:29-124`). -/
def run_analysis (env : AnalysisEnv) (d : ProcurementData) :
    ProcurementData × List Obs :=
  if d.current_state = .START ∨ d.current_state = .AWAITING_CLARIFICATION then
    let d := { d with current_state := .CLARIFYING }
    let obs := [snap d]
    match env.clarify (queryToClarify d) with
    | .error m => (failD d m, obs)
    | .ok cr =>
      if cr.needs_clarification then
        ({ d with current_state := .AWAITING_CLARIFICATION,
                  clarified_query := orDefault cr.question_for_user
                    "Query is too ambiguous." }, obs)
      else
        let d := { d with clarified_query := cr.clarified_query }
        let d := { d with comparison_factors :=
          if d.comparison_factors.isEmpty then cr.comparison_factors
          else d.comparison_factors }
        let d := { d with comparison_factors := dedupSort d.comparison_factors }
        discoveryStep env d obs
  else
    discoveryStep env d []

/-- All externally observable snapshots of one `run_analysis` invocation:
the snapshots at its `await` points followed by the final task record. -/
def runTrace (env : AnalysisEnv) (d : ProcurementData) : List Obs :=
  (run_analysis env d).2 ++ [snap (run_analysis env d).1]

/-! ### The HTTP endpoints of `analysis.py` -/

/-- The in-memory task store `tasks: dict[str, ProcurementData]`
(`analysis.py:26`), as an association list with last-binding-wins lookup. -/
abbrev Store := List (String × ProcurementData)

/-- Lookup `tasks.get(task_id)`. -/
def storeGet (s : Store) (k : String) : Option ProcurementData :=
  (s.reverse.find? (fun kv => kv.1 = k)).map (fun kv => kv.2)

/-- Assignment `tasks[task_id] = d`. -/
def storeSet (s : Store) (k : String) (d : ProcurementData) : Store :=
  s ++ [(k, d)]

/-- Truthiness of `os.getenv("GOOGLE_API_KEY")` (`None` when unset, and the
empty string, are falsy). -/
def googleKeyTruthy (k : Option String) : Bool :=
  match k with
  | some s => s ≠ ""
  | Option.none => false

/-- The `analyze` endpoint (`analysis.py:127-148`): create and store the new
task record first, then check `GOOGLE_API_KEY` (HTTP 500 when missing), and
only then schedule the background worker.  Returns the response, the updated
store, and whether a worker was scheduled. -/
def analyze (store : Store) (newId : String) (query : String)
    (comparison_factors : List String) (googleKey : Option String) :
    Except PyErr String × Store × Bool :=
  let task : ProcurementData :=
    { task_id := newId, initial_query := query,
      comparison_factors := comparison_factors }
  let store := storeSet store newId task
  if googleKeyTruthy googleKey then
    (.ok newId, store, true)
  else
    (.error (.http 500 "GOOGLE_API_KEY not configured"), store, false)

/-- Embedding of `_map_procurement_state_to_status` (`analysis.py:151-158`).  After the
`AWAITING_CLARIFICATION` early return, the comparison with
`ProcurementState.COMPLETED` performs the attribute access, which raises
`AttributeError` because the enum has no such member. -/
def map_procurement_state_to_status (state : ProcurementState) :
    Except PyErr String :=
  if state = .AWAITING_CLARIFICATION then .ok "paused_for_clarification"
  else
    match ProcurementState.fromName "COMPLETED" with
    | Option.none => .error (.attributeError "COMPLETED")
    | some c =>
      if state = c then .ok "completed"
      else if state = .ERROR then .ok "failed"
      else .ok "running"

/-- The `get_status` endpoint (`analysis.py:161-181`): 404 for an unknown
id; otherwise the comparison `task.current_state == ProcurementState.COMPLETED`
(`analysis.py:169`) performs the failing attribute access before anything
else.  The response is reduced to `(task_id, status, result_url)`; the
verbatim `model_dump` payload is omitted as it plays no role in any claim. -/
def get_status (store : Store) (task_id : String) :
    Except PyErr (String × String × Option String) := do
  match storeGet store task_id with
  | Option.none => .error (.http 404 "Task not found")
  | some task =>
    match ProcurementState.fromName "COMPLETED" with
    | Option.none => .error (.attributeError "COMPLETED")
    | some c =>
      let result_url :=
        if task.current_state = c ∧ (task.formatted_output.getD "") ≠ "" then
          some ("data:text/csv;charset=utf-8," ++ task.formatted_output.getD "")
        else Option.none
      let status ← map_procurement_state_to_status task.current_state
      .ok (task.task_id, status, result_url)

/-- The `clarify_task` endpoint (`analysis.py:184-211`): 404 for an unknown
id, 400 when the task is not awaiting clarification; otherwise the task's
`clarified_query` is overwritten with the new query (and the state
re-asserted as `AWAITING_CLARIFICATION`) before the `GOOGLE_API_KEY` check
(HTTP 500, without scheduling, when it is missing); only then is the worker
scheduled.  Returns the response, the updated store, and whether a worker
was scheduled. -/
def clarify_task (store : Store) (task_id : String) (query : String)
    (googleKey : Option String) : Except PyErr String × Store × Bool :=
  match storeGet store task_id with
  | Option.none => (.error (.http 404 "Task not found"), store, false)
  | some d =>
    if d.current_state ≠ .AWAITING_CLARIFICATION then
      (.error (.http 400 ("Task is not awaiting clarification. Current state: "
        ++ d.current_state.pyName)), store, false)
    else
      let d := { d with clarified_query := query,
                        current_state := .AWAITING_CLARIFICATION }
      let store := storeSet store task_id d
      if googleKeyTruthy googleKey then
        (.ok "Task clarification received. Resuming analysis.", store, true)
      else
        (.error (.http 500 "GOOGLE_AI_KEY not configured"), store, false)

/-! ### Claim theorems -/

/-- Claim **C3** (code bug).  The status projection is *not* a total function of
the internal state: the line `if state == ProcurementState.COMPLETED`
performs an attribute access on a name that is not a member of the enum in
`tasks.py` (whose terminal success member is `DONE`), so the projection
raises `AttributeError('COMPLETED')` for every state other than
`AWAITING_CLARIFICATION` — in particular it never returns `"completed"`,
`"failed"` or `"running"`. -/
theorem map_state_to_status_raises :
    map_procurement_state_to_status .DONE = .error (.attributeError "COMPLETED")
    ∧ map_procurement_state_to_status .ERROR = .error (.attributeError "COMPLETED")
    ∧ map_procurement_state_to_status .START = .error (.attributeError "COMPLETED")
    ∧ map_procurement_state_to_status .AWAITING_CLARIFICATION
        = .ok "paused_for_clarification" :=
  ⟨rfl, rfl, rfl, rfl⟩

/-- Claim **C10** (code bug).  With `GOOGLE_API_KEY` unset, `analyze` stores the
new task, then raises HTTP 500 without scheduling a worker, and the orphaned
task remains in `START`; but a subsequent status query does *not* project it
as `"running"`: `get_status` raises `AttributeError('COMPLETED')` on the
missing enum member before producing any status. -/
theorem analyze_without_key_orphans_task :
    analyze [] "t1" "crm software" [] Option.none
      = (.error (.http 500 "GOOGLE_API_KEY not configured"),
         [("t1", { task_id := "t1", initial_query := "crm software" })], false)
    ∧ (storeGet (analyze [] "t1" "crm software" [] Option.none).2.1 "t1").map
        (fun d => d.current_state) = some .START
    ∧ get_status (analyze [] "t1" "crm software" [] Option.none).2.1 "t1"
        = .error (.attributeError "COMPLETED") :=
  ⟨rfl, rfl, rfl⟩

/-- Four requested factors for the acceptance-rule scenarios of C4. -/
def cxFactors : List String := ["alpha", "beta", "gamma", "delta"]

/-- A factor definition as produced by `determine_factor_definition`. -/
def cxDef : FactorDefinition := ⟨.dict [("type", .str "string")], "none", Option.none⟩

/-- One definition per requested factor. -/
def cxDefs : List FactorDefinition := [cxDef, cxDef, cxDef, cxDef]

/-- A search-result product with values for only 2 of the 4 factors. -/
def cxProductHalf : PyDict :=
  [("product_name", .str "P"), ("alpha", .str "x"), ("beta", .str "y")]

/-- A search-result product with values for 3 of the 4 factors. -/
def cxProductOne : PyDict :=
  [("product_name", .str "Q"), ("alpha", .str "x"), ("beta", .str "y"),
   ("gamma", .str "z")]

/-- Claim **C4** (counterexample).  The collection loop of `search_and_extract`
applies no acceptance rule: a record with exactly half of its 4 fields
holding the `"Not found"` sentinel is still added to the collected results,
contradicting the claimed strict-minority threshold. -/
theorem half_not_found_record_is_collected :
    (formatProducts [cxProductHalf] cxFactors cxDefs).length = 1
    ∧ notFoundCount ((formatProducts [cxProductHalf] cxFactors cxDefs).headD []) = 2
    ∧ cxFactors.length = 4 :=
  ⟨rfl, rfl, rfl⟩

/-- Claim **C4** (amended).  Every product of the search result yields exactly one
collected record, regardless of how many of its fields hold the
`"Not found"` sentinel; in particular a record with 1 of 4 fields
`"Not found"` is collected too. -/
theorem every_record_is_collected :
    (∀ (products : List PyDict) (factors : List String)
       (defs : List FactorDefinition),
        (formatProducts products factors defs).length = products.length)
    ∧ notFoundCount ((formatProducts [cxProductOne] cxFactors cxDefs).headD []) = 1 :=
  ⟨fun products _ _ => by simp [formatProducts], rfl⟩

/-- A source returned by two different search queries of the same round. -/
def resB : SearchResult := ⟨"https://vendorb.com/pricing", some "VendorB", Option.none⟩

/-- A source returned by one search query only. -/
def resC : SearchResult := ⟨"https://vendorc.com/pricing", some "VendorC", Option.none⟩

/-- A search oracle for the category `"crm"`: the first query returns source
B, the second returns sources B and C, the rest return nothing. -/
def cxOracle : String → Except String (List SearchResult) := fun q =>
  if q = "crm software comparison 2024" then .ok [resB]
  else if q = "best crm tools list" then .ok [resB, resC]
  else .ok []

/-- Claim **C5** (counterexample).  No visited-source bookkeeping exists: when two
search queries of the same task both return source B, B is passed to the
extraction step twice — a source already processed is handed to extraction
again, contradicting the claimed filtering against a `visitedSources` set
(`ProcurementData` has no such field and `run_analysis` performs a single
un-deduplicated `search_and_extract` call). -/
theorem processed_source_passed_to_extraction_again :
    (extractionInputs "crm" cxOracle).countP
        (fun r => r.url = "https://vendorb.com/pricing") = 2 := by
  decide

/-- Helper for the no-deduplication characterisation: counting matches of
the collection fold of `search_and_extract`. -/
theorem countP_collect_fold (p : SearchResult → Bool)
    (oracle : String → Except String (List SearchResult)) :
    ∀ (qs : List String) (acc : List SearchResult),
      ((qs.foldl (collectStep oracle) acc).countP p)
        = acc.countP p
          + (qs.map (fun q =>
              (match oracle q with
               | .ok rs => rs.filter keepResult
               | .error _ => ([] : List SearchResult)).countP p)).sum := by
  intro qs
  induction qs with
  | nil => intro acc; simp
  | cons q qs ih =>
      intro acc
      rw [List.foldl_cons, List.map_cons, List.sum_cons, ih]
      cases h : oracle q with
      | error m =>
          have hstep : collectStep oracle acc q = acc := by
            unfold collectStep; rw [h]
          rw [hstep]
          simp [h]
      | ok rs =>
          cases rs with
          | nil =>
              have hstep : collectStep oracle acc q = acc := by
                unfold collectStep; rw [h]; rfl
              rw [hstep]
              simp [h]
          | cons r rs' =>
              have hstep : collectStep oracle acc q
                  = acc ++ (r :: rs').filter keepResult := by
                unfold collectStep; rw [h]; rfl
              rw [hstep, List.countP_append]
              simp [h]
              omega

/-- Claim **C5** (amended).  The pipeline keeps no visited-source set: per task
run there is a single `search_and_extract` call whose collection loop
concatenates the filtered results of its seven queries without any
de-duplication, so the number of times a source URL appears among the
collected results equals the sum of its filtered occurrences across the
queries. -/
theorem collected_sources_not_deduplicated :
    ∀ (product_category : String)
      (oracle : String → Except String (List SearchResult)) (u : String),
      (allResults product_category oracle).countP
          (fun (r : SearchResult) => r.url = u)
        = ((searchQueries product_category).map (fun q =>
            (match oracle q with
             | .ok rs => rs.filter keepResult
             | .error _ => ([] : List SearchResult)).countP
              (fun (r : SearchResult) => r.url = u))).sum := by
  intro cat oracle u
  unfold allResults
  rw [countP_collect_fold]
  simp

/-- The processing step reduces to the `AttributeError` handler: the
attribute access `ProcurementState.PROCESSING` fails, so the task is moved
to `ERROR` with `error_message = "PROCESSING"`. -/
theorem processingStep_eq (env : AnalysisEnv) (d : ProcurementData)
    (obs : List Obs) : processingStep env d obs = (failD d "PROCESSING", obs) :=
  rfl

/-- The discovery step always ends in the `ERROR` state: either the
search raises, or it returns nothing (the distinguished discovery failure),
or control falls into the failing processing step. -/
theorem discoveryStep_state (env : AnalysisEnv) (d : ProcurementData)
    (obs : List Obs) : (discoveryStep env d obs).1.current_state = .ERROR := by
  unfold discoveryStep
  dsimp only
  cases h : env.searchExtract d.clarified_query d.comparison_factors with
  | error m => rfl
  | ok ed =>
      cases ed with
      | nil => rfl
      | cons x xs => rfl

/-- The discovery step leaves `comparison_factors` untouched. -/
theorem discoveryStep_factors (env : AnalysisEnv) (d : ProcurementData)
    (obs : List Obs) :
    (discoveryStep env d obs).1.comparison_factors = d.comparison_factors := by
  unfold discoveryStep
  dsimp only
  cases h : env.searchExtract d.clarified_query d.comparison_factors with
  | error m => rfl
  | ok ed =>
      cases ed with
      | nil => rfl
      | cons x xs => rfl

/-- The discovery step leaves `formatted_output` untouched. -/
theorem discoveryStep_formatted (env : AnalysisEnv) (d : ProcurementData)
    (obs : List Obs) :
    (discoveryStep env d obs).1.formatted_output = d.formatted_output := by
  unfold discoveryStep
  dsimp only
  cases h : env.searchExtract d.clarified_query d.comparison_factors with
  | error m => rfl
  | ok ed =>
      cases ed with
      | nil => rfl
      | cons x xs => rfl

/-- A stage environment in which every external collaborator succeeds. -/
def happyEnv : AnalysisEnv :=
  { clarify := fun _ => .ok ⟨false, Option.none, "crm software 2025", ["pricing"]⟩,
    searchExtract := fun _ _ => .ok [[("product_name", .str "Acme")]],
    processData := fun ed => .ok ed,
    enrich := fun ed => .ok ed,
    litEval := fun _ => Option.none }

/-- A freshly created task, as stored by the `analyze` endpoint. -/
def startTask : ProcurementData := { task_id := "t1", initial_query := "crm software" }

/-- Claim **C1** (code bug).  A run can only end paused (`AWAITING_CLARIFICATION`)
or failed (`ERROR`); the terminal success state `DONE` is unreachable, and
even a run in which every collaborator succeeds ends in `ERROR` with
`error_message = "PROCESSING"` and no rendered output, because
`run_analysis` sets `ProcurementState.PROCESSING` — not a member of the enum
— before it could ever reach the formatting step or
`ProcurementState.COMPLETED` (also not a member). -/
theorem run_analysis_never_reaches_done :
    (∀ (env : AnalysisEnv) (d : ProcurementData),
        (run_analysis env d).1.current_state = .AWAITING_CLARIFICATION
        ∨ (run_analysis env d).1.current_state = .ERROR)
    ∧ (run_analysis happyEnv startTask).1.current_state = .ERROR
    ∧ (run_analysis happyEnv startTask).1.error_message = some "PROCESSING"
    ∧ (run_analysis happyEnv startTask).1.formatted_output = Option.none := by
  refine ⟨?_, rfl, rfl, rfl⟩
  intro env d
  unfold run_analysis
  dsimp only
  split
  · cases h : env.clarify (queryToClarify { d with current_state := .CLARIFYING }) with
    | error m => exact Or.inr rfl
    | ok cr =>
        dsimp only
        by_cases hn : cr.needs_clarification
        · rw [if_pos hn]; exact Or.inl rfl
        · rw [if_neg hn]; exact Or.inr (discoveryStep_state env _ _)
  · exact Or.inr (discoveryStep_state env d [])

/-- An environment whose clarification stage succeeds with
`needs_input = false` and factors `["pricing"]`, and whose discovery
returns nothing. -/
def envC6 : AnalysisEnv :=
  { clarify := fun _ => .ok ⟨false, Option.none, "crm software", ["pricing"]⟩,
    searchExtract := fun _ _ => .ok [],
    processData := fun ed => .ok ed,
    enrich := fun ed => .ok ed,
    litEval := fun _ => Option.none }

/-- A task whose caller supplied the factor list `["integrations"]`. -/
def taskC6 : ProcurementData :=
  { task_id := "t6", initial_query := "crm", comparison_factors := ["integrations"] }

/-- Claim **C6** (counterexample).  The caller supplied `["integrations"]` and the
clarification stage returned `["pricing"]` with `needs_input = false`, yet
the task's factor set ends as `["integrations"]` — the returned factors are
*not* united with the caller's, contradicting the claimed union merge
(`analysis.py:46-47` assigns the returned factors only when the caller
supplied none). -/
theorem clarification_factors_not_merged :
    (run_analysis envC6 taskC6).1.comparison_factors = ["integrations"]
    ∧ ¬ ("pricing" ∈ (run_analysis envC6 taskC6).1.comparison_factors) :=
  ⟨rfl, by decide⟩

/-- Claim **C6** (amended).  When the caller supplied a non-empty factor list and
clarification succeeds with `needs_input = false`, the factors returned by
the clarification stage are discarded: the task's factor set becomes the
caller-supplied factors, de-duplicated and sorted. -/
theorem caller_factors_kept :
    ∀ (env : AnalysisEnv) (d : ProcurementData) (cr : ClarificationResult),
      (d.current_state = .START ∨ d.current_state = .AWAITING_CLARIFICATION) →
      env.clarify (queryToClarify d) = .ok cr →
      cr.needs_clarification = false →
      d.comparison_factors ≠ [] →
      (run_analysis env d).1.comparison_factors = dedupSort d.comparison_factors := by
  intro env d cr hstart hc hn hne
  unfold run_analysis
  dsimp only
  rw [if_pos hstart,
      show env.clarify (queryToClarify { d with current_state := .CLARIFYING })
        = Except.ok cr from hc]
  dsimp only
  rw [if_neg (by simp [hn])]
  rw [discoveryStep_factors]
  dsimp only
  have hfalse : d.comparison_factors.isEmpty = false := by
    cases hcf : d.comparison_factors with
    | nil => exact absurd hcf hne
    | cons a as => rfl
  rw [hfalse]
  rfl

/-- Witness for `caller_factors_kept` at a concrete task and environment. -/
theorem caller_factors_kept_witness :
    (run_analysis envC6 taskC6).1.comparison_factors = dedupSort ["integrations"] :=
  caller_factors_kept envC6 taskC6
    ⟨false, Option.none, "crm software", ["pricing"]⟩
    (Or.inl rfl) rfl rfl (by decide)

/-- An environment whose clarification succeeds but whose discovery phase
yields zero records. -/
def envC7 : AnalysisEnv :=
  { clarify := fun _ => .ok ⟨false, Option.none, "crm software", ["pricing"]⟩,
    searchExtract := fun _ _ => .ok [],
    processData := fun ed => .ok ed,
    enrich := fun ed => .ok ed,
    litEval := fun _ => Option.none }

/-- Claim **C7** (confirmed).  When clarification succeeds and `search_and_extract`
returns zero records, the task ends in the terminal failure state `ERROR`
with the distinguished insufficient-data message — never in an empty
success (`formatted_output` stays unset). -/
theorem zero_records_terminal_failure :
    ∀ (env : AnalysisEnv) (d : ProcurementData) (cr : ClarificationResult),
      (d.current_state = .START ∨ d.current_state = .AWAITING_CLARIFICATION) →
      env.clarify (queryToClarify d) = .ok cr →
      cr.needs_clarification = false →
      (∀ (q : String) (fs : List String), env.searchExtract q fs = .ok []) →
      d.formatted_output = Option.none →
      (run_analysis env d).1.current_state = .ERROR
      ∧ (run_analysis env d).1.error_message
          = some "Phase 1 (Discovery) failed: Could not extract any initial data."
      ∧ (run_analysis env d).1.formatted_output = Option.none := by
  intro env d cr hstart hc hn hse hfo
  unfold run_analysis
  dsimp only
  rw [if_pos hstart,
      show env.clarify (queryToClarify { d with current_state := .CLARIFYING })
        = Except.ok cr from hc]
  dsimp only
  rw [if_neg (by simp [hn])]
  unfold discoveryStep
  dsimp only
  rw [hse]
  exact ⟨rfl, rfl, hfo⟩

/-- Witness for `zero_records_terminal_failure` at a concrete task and
environment. -/
theorem zero_records_terminal_failure_witness :
    (run_analysis envC7 startTask).1.current_state = .ERROR
    ∧ (run_analysis envC7 startTask).1.error_message
        = some "Phase 1 (Discovery) failed: Could not extract any initial data."
    ∧ (run_analysis envC7 startTask).1.formatted_output = Option.none :=
  zero_records_terminal_failure envC7 startTask
    ⟨false, Option.none, "crm software", ["pricing"]⟩
    (Or.inl rfl) rfl rfl (fun _ _ => rfl) rfl

/-- A task is still running when its state is neither terminal member
(`DONE`, `ERROR`); this includes the paused `AWAITING_CLARIFICATION`
state. -/
def Obs.stillRunning (o : Obs) : Bool :=
  !(o.state = .DONE || o.state = .ERROR)

/-- The trichotomy of C2 at one observation: exactly one of
running / `formatted_output` set / `error_message` set. -/
def obsOk (o : Obs) : Bool :=
  (o.stillRunning && o.formatted_output.isNone && o.error_message.isNone)
  || (!o.stillRunning && o.formatted_output.isSome && o.error_message.isNone)
  || (!o.stillRunning && o.formatted_output.isNone && o.error_message.isSome)

/-- The discovery step contributes exactly one `EXTRACTING` snapshot to the
observation list. -/
theorem discoveryStep_trace_eq (env : AnalysisEnv) (d : ProcurementData)
    (obs : List Obs) :
    (discoveryStep env d obs).2
      = obs ++ [snap { d with current_state := .EXTRACTING }] := by
  unfold discoveryStep
  dsimp only
  cases h : env.searchExtract d.clarified_query d.comparison_factors with
  | error m => rfl
  | ok ed =>
      cases ed with
      | nil => rfl
      | cons x xs => rfl

/-- The discovery step always sets an error message. -/
theorem discoveryStep_errNone (env : AnalysisEnv) (d : ProcurementData)
    (obs : List Obs) :
    (discoveryStep env d obs).1.error_message.isNone = false := by
  unfold discoveryStep
  dsimp only
  cases h : env.searchExtract d.clarified_query d.comparison_factors with
  | error m => rfl
  | ok ed =>
      cases ed with
      | nil => rfl
      | cons x xs => rfl

/-- The discovery step's error message is set (`isSome`). -/
theorem discoveryStep_errSome (env : AnalysisEnv) (d : ProcurementData)
    (obs : List Obs) :
    (discoveryStep env d obs).1.error_message.isSome = true := by
  unfold discoveryStep
  dsimp only
  cases h : env.searchExtract d.clarified_query d.comparison_factors with
  | error m => rfl
  | ok ed =>
      cases ed with
      | nil => rfl
      | cons x xs => rfl

/-- Claim **C2** (confirmed).  Along every observable point of a worker run that
starts from a reachable task (fresh `START` task from `analyze`, or paused
`AWAITING_CLARIFICATION` task resumed by `clarify_task`, in both cases with
neither output field set), exactly one of \x7bstill running,
`formatted_output` set, `error_message` set\x7d holds; in particular no
reachable observation has both `formatted_output` and `error_message`
set. -/
theorem task_observation_trichotomy :
    ∀ (env : AnalysisEnv) (d : ProcurementData),
      d.formatted_output = Option.none →
      d.error_message = Option.none →
      (d.current_state = .START ∨ d.current_state = .AWAITING_CLARIFICATION) →
      ∀ o ∈ snap d :: runTrace env d, obsOk o = true := by
  intro env d hfo hem hstart
  have hall : (snap d :: runTrace env d).all obsOk = true := by
    unfold runTrace run_analysis
    dsimp only
    rw [if_pos hstart]
    cases hc : env.clarify (queryToClarify { d with current_state := .CLARIFYING }) with
    | error m =>
        rcases hstart with h | h <;>
          simp [snap, failD, obsOk, Obs.stillRunning, hfo, hem, h]
    | ok cr =>
        dsimp only
        by_cases hn : cr.needs_clarification
        · rw [if_pos hn]
          rcases hstart with h | h <;>
            simp [snap, obsOk, Obs.stillRunning, hfo, hem, h]
        · rw [if_neg hn]
          rcases hstart with h | h <;>
            simp [snap, obsOk, Obs.stillRunning,
              discoveryStep_trace_eq, discoveryStep_state,
              discoveryStep_formatted, discoveryStep_errNone,
              discoveryStep_errSome, hfo, hem, h]
  exact fun o ho => List.all_eq_true.mp hall o ho

/-- Witness for `task_observation_trichotomy`: the whole trace of a
concrete successful-collaborator run satisfies the trichotomy. -/
theorem task_observation_trichotomy_witness :
    (snap startTask :: runTrace happyEnv startTask).all obsOk = true := by
  have h := task_observation_trichotomy happyEnv startTask rfl rfl (Or.inl rfl)
  exact List.all_eq_true.mpr h

/-- The stored binding for a key after `storeSet` is the new record. -/
theorem storeGet_storeSet (s : Store) (k : String) (d : ProcurementData) :
    storeGet (storeSet s k d) k = some d := by
  unfold storeGet storeSet
  rw [List.reverse_append]
  simp [List.find?]

/-- Claim **C8** (confirmed).  `clarify_task` fails with HTTP 404 on an unknown id
and HTTP 400 on a task that is not awaiting clarification, in both cases
leaving the store untouched and scheduling no worker; only on a paused task
does it overwrite the working query (and schedule the resumed worker exactly
when `GOOGLE_API_KEY` is set). -/
theorem clarify_task_state_guard :
    ∀ (store : Store) (id q : String) (gk : Option String),
      (storeGet store id = Option.none →
        clarify_task store id q gk
          = (.error (.http 404 "Task not found"), store, false))
      ∧ (∀ d, storeGet store id = some d →
          d.current_state ≠ .AWAITING_CLARIFICATION →
          clarify_task store id q gk
            = (.error (.http 400
                ("Task is not awaiting clarification. Current state: "
                  ++ d.current_state.pyName)), store, false))
      ∧ (∀ d, storeGet store id = some d →
          d.current_state = .AWAITING_CLARIFICATION →
          storeGet (clarify_task store id q gk).2.1 id
              = some { d with clarified_query := q,
                              current_state := .AWAITING_CLARIFICATION }
          ∧ ((clarify_task store id q gk).2.2 = true
              ↔ googleKeyTruthy gk = true)) := by
  intro store id q gk
  refine ⟨?_, ?_, ?_⟩
  · intro hnone
    unfold clarify_task
    rw [hnone]
  · intro d hsome hstate
    simp only [clarify_task, hsome]
    rw [if_pos hstate]
  · intro d hsome hstate
    simp only [clarify_task, hsome]
    rw [if_neg (by simp [hstate])]
    cases hg : googleKeyTruthy gk with
    | true =>
        rw [if_pos rfl]
        exact ⟨storeGet_storeSet store id _, by simp⟩
    | false =>
        rw [if_neg (by simp)]
        exact ⟨storeGet_storeSet store id _, by simp [hg]⟩

/-- A paused task, eligible for `clarify_task`. -/
def pausedTask : ProcurementData :=
  { task_id := "p1", initial_query := "software",
    current_state := .AWAITING_CLARIFICATION }

/-- Witness for `clarify_task_state_guard`: the 404 branch on an empty
store, and the resume branch on a store holding one paused task. -/
theorem clarify_task_state_guard_witness :
    clarify_task [] "p1" "more specific" (some "k")
        = (.error (.http 404 "Task not found"), [], false)
    ∧ storeGet (clarify_task [("p1", pausedTask)] "p1" "more specific"
          (some "k")).2.1 "p1"
        = some { pausedTask with clarified_query := "more specific",
                                 current_state := .AWAITING_CLARIFICATION } :=
  ⟨(clarify_task_state_guard [] "p1" "more specific" (some "k")).1 rfl,
   ((clarify_task_state_guard [("p1", pausedTask)] "p1" "more specific"
      (some "k")).2.2 pausedTask rfl rfl).1⟩

/-- A factor entry is well formed when it is a dict whose `'name'` binding —
if any — is a string and comes with a `'value'` binding (the shape produced
by the extraction stage). -/
def wellFormedEntry (f : PyVal) : Bool :=
  match f with
  | .dict d =>
      match pyGet d "name" with
      | some (.str _) => (pyGet d "value").isSome
      | some _ => false
      | Option.none => true
  | _ => false

/-- An item is well formed when its `'extracted_factors'` binding, if
present, is a list of well-formed entries. -/
def wellFormedItem (item : PyDict) : Bool :=
  match pyGet item "extracted_factors" with
  | Option.none => true
  | some (.list fs) => fs.all wellFormedEntry
  | some _ => false

/-- All items well formed. -/
def wellFormedData (data : List PyDict) : Bool := data.all wellFormedItem

/-- Specification-side description of the factor dictionary: the
`(name, value)` pairs of the entries that carry a `'name'` binding. -/
def entryPairs (fs : List PyVal) : List (PyVal × PyVal) :=
  fs.filterMap (fun f =>
    match f with
    | .dict d =>
        match pyGet d "name" with
        | some n => some (n, (pyGet d "value").getD .none)
        | Option.none => Option.none
    | _ => Option.none)

/-- The entry list of an item (empty when absent). -/
def itemEntries (item : PyDict) : List PyVal :=
  match pyGet item "extracted_factors" with
  | some (.list fs) => fs
  | _ => []

/-- Specification-side description of one CSV body row: the product name
(`'N/A'` when the key is missing) followed, per sorted unique factor, by the
formatted value of its entry (`'Not found'` when the factor has no
entry). -/
def rowSpec (litEval : String → Option PyVal) (unique_factors : List String)
    (item : PyDict) : List PyVal :=
  (pyGet item "product_name").getD (.str "N/A") ::
    unique_factors.map (fun fn =>
      PyVal.str (format_value litEval
        ((assocGetLast (entryPairs (itemEntries item)) (.str fn)).getD
          (.str "Not found"))))

/-- On well-formed entries the dict comprehension succeeds and produces
exactly the `(name, value)` pairs. -/
theorem factorsDictAux_wf :
    ∀ (fs : List PyVal) (acc : List (PyVal × PyVal)),
      fs.all wellFormedEntry = true →
      factorsDictAux acc fs = .ok (acc ++ entryPairs fs) := by
  intro fs
  induction fs with
  | nil => intro acc _; simp [factorsDictAux, entryPairs]
  | cons f fs ih =>
      intro acc hwf
      rw [List.all_cons, Bool.and_eq_true] at hwf
      obtain ⟨hf, hfs⟩ := hwf
      cases f with
      | str s => simp [wellFormedEntry] at hf
      | list l => simp [wellFormedEntry] at hf
      | none => simp [wellFormedEntry] at hf
      | dict d =>
          cases hn : pyGet d "name" with
          | none =>
              have : pyContainsKey (.dict d) "name" = .ok false := by
                simp [pyContainsKey, hn]
              simp [factorsDictAux, this, Bind.bind, Except.bind,
                ih _ hfs, entryPairs, List.filterMap_cons, hn]
          | some n =>
              simp only [wellFormedEntry] at hf
              rw [hn] at hf
              cases n with
              | str nm =>
                  cases hv : pyGet d "value" with
                  | none => rw [hv] at hf; simp at hf
                  | some v =>
                      have hck : pyContainsKey (.dict d) "name" = .ok true := by
                        simp [pyContainsKey, hn]
                      have hsn : pySubscript (.dict d) "name" = .ok (.str nm) := by
                        simp [pySubscript, hn]
                      have hsv : pySubscript (.dict d) "value" = .ok v := by
                        simp [pySubscript, hv]
                      simp [factorsDictAux, hck, hsn, hsv, Bind.bind,
                        Except.bind, ih _ hfs, entryPairs,
                        List.filterMap_cons, hn, hv]
              | list l => simp at hf
              | dict dd => simp at hf
              | none => simp at hf

/-- On a well-formed item, `buildRow` succeeds and produces the
specification-side row. -/
theorem buildRow_wf (litEval : String → Option PyVal) (uf : List String)
    (item : PyDict) (hwf : wellFormedItem item = true) :
    buildRow litEval uf item = .ok (rowSpec litEval uf item) := by
  unfold buildRow rowSpec itemEntries
  cases hef : pyGet item "extracted_factors" with
  | none =>
      simp [hef, pyIterate, Bind.bind, Except.bind,
        factorsDictAux_wf [] [] rfl, entryPairs]
  | some v =>
      cases v with
      | list fs =>
          have hfs : fs.all wellFormedEntry = true := by
            simp only [wellFormedItem] at hwf
            rw [hef] at hwf
            exact hwf
          simp [hef, pyIterate, Bind.bind, Except.bind,
            factorsDictAux_wf fs [] hfs]
      | str s =>
          simp only [wellFormedItem] at hwf
          rw [hef] at hwf
          simp at hwf
      | dict dd =>
          simp only [wellFormedItem] at hwf
          rw [hef] at hwf
          simp at hwf
      | none =>
          simp only [wellFormedItem] at hwf
          rw [hef] at hwf
          simp at hwf

/-- On well-formed data every body row succeeds. -/
theorem rows_mapM_wf (litEval : String → Option PyVal) (uf : List String) :
    ∀ (data : List PyDict), wellFormedData data = true →
      (data.mapM (fun item => do
          let cells ← buildRow litEval uf item
          pure (csvRow cells)))
        = .ok (data.map (fun item => csvRow (rowSpec litEval uf item))) := by
  intro data
  induction data with
  | nil => intro _; rfl
  | cons item rest ih =>
      intro hwf
      rw [wellFormedData, List.all_cons, Bool.and_eq_true] at hwf
      obtain ⟨hitem, hrest⟩ := hwf
      rw [List.mapM_cons, List.map_cons]
      rw [buildRow_wf litEval uf item hitem]
      rw [ih hrest]
      rfl

/-- Claim **C9** (amended).  On well-formed inputs, `format_data_as_csv` is total
and deterministic and returns the header row — `product_name` followed by
the *formatted* (underscores to spaces, title-cased) sorted de-duplicated
factor names, ordered by the sorted raw names — followed by one
specification row per item (`'N/A'` for a missing product name,
`'Not found'` for a factor with no entry). -/
theorem format_csv_structure :
    ∀ (litEval : String → Option PyVal) (data : List PyDict)
      (factors : List String), wellFormedData data = true →
      format_data_as_csv litEval data factors
        = .ok (csvRow (PyVal.str "product_name" ::
              (dedupSort factors).map (fun f => PyVal.str (format_header f)))
            ++ concatStrings (data.map (fun item =>
                csvRow (rowSpec litEval (dedupSort factors) item)))) := by
  intro litEval data factors hwf
  unfold format_data_as_csv
  dsimp only
  rw [rows_mapM_wf litEval (dedupSort factors) data hwf]
  rfl

/-- A product item with no `product_name` key. -/
def w9item1 : PyDict :=
  [("extracted_factors", .list [.dict [("name", .str "pricing"),
                                       ("value", .str "free")]])]

/-- A product item with no entry for the requested factor. -/
def w9item2 : PyDict :=
  [("product_name", .str "Acme"), ("extracted_factors", .list [])]

/-- Witness for `format_csv_structure` at concrete data exercising the
`'N/A'` and `'Not found'` substitutions. -/
theorem format_csv_structure_witness :
    wellFormedData [w9item1, w9item2] = true
    ∧ format_data_as_csv (fun _ => Option.none) [w9item1, w9item2] ["pricing"]
        = .ok "product_name,Pricing\r\nN/A,free\r\nAcme,Not found\r\n" :=
  ⟨rfl,
   (format_csv_structure (fun _ => Option.none) [w9item1, w9item2]
      ["pricing"] rfl).trans rfl⟩

/-- Claim **C9** (counterexample).  The header row is *not* the raw deduplicated
factor names: the factor `"pricing"` appears in the header as `"Pricing"`
(`_format_header` replaces underscores and title-cases each name). -/
theorem csv_header_not_raw_factor_names :
    format_data_as_csv (fun _ => Option.none) [] ["pricing"]
        = .ok "product_name,Pricing\r\n"
    ∧ format_data_as_csv (fun _ => Option.none) [] ["pricing"]
        ≠ .ok "product_name,pricing\r\n" := by
  refine ⟨rfl, ?_⟩
  intro h
  rw [show format_data_as_csv (fun _ => Option.none) [] ["pricing"]
        = .ok "product_name,Pricing\r\n" from rfl] at h
  injection h with h'
  exact absurd h' (by decide)
